import Mathlib

/-!
Shallow embedding of the SynthSeg training orchestrator
(`SynthSeg/training.py`, functions `training` and `train_model`) and of the
command-line launcher (`scripts/launch_scripts_from_terminal/training.py`).

The training run is modelled as the linear trace of externally visible steps
the Python code performs (label-list resolution, directory creation,
generator/model construction, weight loading, compiling, per-epoch generator
pulls and checkpoint saves), together with the error, if any, that aborts it.
Numeric parameters that the traced behaviour depends on are carried in
`Config`; real-valued hyperparameters use `Rat`.  Collaborators of the
orchestrator that are not part of the visible sources
(`ext.lab2im.utils.get_list_labels`, `BrainGenerator`,
`metrics_model.IdentityLoss`, and the Keras fit/checkpoint machinery) are
modelled from the spec where a claim needs them; each such definition says so
in its doc comment.
-/

namespace SynthSeg

/-- The abort signal of a failed parameter validation.  The epoch-count check
is a Python `assert` and the generator-construction check raises what the
spec calls a `ConfigurationError`; the spec's taxonomy treats both as
configuration errors, which is what the trace records. -/
inductive TrainError where
  | configurationError
  deriving DecidableEq

/-- One externally visible step of a training run, in the order the Python
code performs them.  `getListLabels` records a call to
`utils.get_list_labels` with its `label_list`, `labels_dir` and
`save_label_list` arguments; `runEpochSteps` records one epoch of
`steps_per_epoch` generator pulls of the given phase; `saveWeights` records a
checkpoint write (with the `save_weights_only` flag); `writeSummaries`
records a TensorBoard summary write. -/
inductive Step where
  | getListLabels (labelList : Option String) (labelsDir : Option String)
      (saveLabelList : Option String)
  | mkdir (path : String)
  | buildGenerator
  | buildUnet
  | loadWeights (phase : String) (path : String) (byName : Bool)
  | compile (phase : String)
  | runEpochSteps (phase : String) (epoch : Nat) (nSteps : Int)
  | saveWeights (path : String) (weightsOnly : Bool)
  | writeSummaries (logDir : String)
  deriving DecidableEq

/-- The parameters of `SynthSeg.training.training` that the traced behaviour
depends on, with the defaults of the Python signature.  The remaining
generation/architecture parameters are threaded through unchanged to the
generator and the network and do not influence the traced control flow;
`prior_n_mod` abstracts the number of modality blocks in the supplied
`prior_means`/`prior_stds` arrays (the `M` of the spec), which is data the
generator's modelled validation inspects. -/
structure Config where
  labels_dir : String
  model_dir : String
  path_generation_labels : Option String := none
  path_segmentation_labels : Option String := none
  save_generation_labels : Option String := none
  batchsize : Nat := 1
  n_channels : Nat := 1
  use_specific_stats_for_channel : Bool := false
  prior_n_mod : Nat := 1
  n_levels : Nat := 5
  lr : Rat := 1 / 10000
  lr_decay : Rat := 0
  wl2_epochs : Int := 5
  dice_epochs : Int := 100
  steps_per_epoch : Int := 1000
  load_model_file : Option String := none
  initial_epoch_wl2 : Nat := 0
  initial_epoch_dice : Nat := 0

/-- `'%03d' % n` for a non-negative epoch number: decimal digits, left-padded
with zeros to width 3. -/
def pad3 (n : Nat) : String :=
  if n < 10 then "00" ++ toString n
  else if n < 100 then "0" ++ toString n
  else toString n

/-- `os.path.join(model_dir, '%s_%03d.h5' % (tag, n))`: the checkpoint path
of phase `tag` and epoch number `n`. -/
def ckptPath (modelDir tag : String) (n : Nat) : String :=
  modelDir ++ "/" ++ tag ++ "_" ++ pad3 n ++ ".h5"

/-- `os.path.join(model_dir, 'logs')`. -/
def logDirOf (modelDir : String) : String := modelDir ++ "/logs"

/-- A weight-loading decision: the file read and whether Keras
`load_weights` is called with `by_name=True` (layer-name matching) or
without (strict whole-architecture load). -/
structure WeightLoad where
  path : String
  byName : Bool
  deriving DecidableEq

/-- Modelled from the spec (§6, checkpoint file): whether a Keras
`load_weights` call succeeds, as a function of the `by_name` flag and of
whether the checkpoint's architecture exactly matches the loading model.  A
`by_name=True` load tolerates extra/missing layers; a plain load requires an
exact match and fails otherwise. -/
def loadWeightsSucceeds (byName exactArchMatch : Bool) : Bool :=
  byName || exactArchMatch

/-- The weight load performed on the wl2 model before the warm-up phase
(`training.py` lines 269-270): `load_model_file`, strict, when given. -/
def wl2InitialLoad (cfg : Config) : Option WeightLoad :=
  match cfg.load_model_file with
  | some p => some { path := p, byName := false }
  | none => none

/-- The weight load performed on the dice model before the fine-tuning phase
(`training.py` lines 277-281): the final warm-up checkpoint
`wl2_%03d.h5 % wl2_epochs` with `by_name=True` when the warm-up phase ran,
else `load_model_file`, strict, when given. -/
def diceInitialLoad (cfg : Config) : Option WeightLoad :=
  if 0 < cfg.wl2_epochs then
    some { path := ckptPath cfg.model_dir "wl2" cfg.wl2_epochs.toNat, byName := true }
  else
    match cfg.load_model_file with
    | some p => some { path := p, byName := false }
    | none => none

/-- The trace steps of an optional weight load. -/
def loadSteps (phase : String) (l : Option WeightLoad) : List Step :=
  match l with
  | some w => [Step.loadWeights phase w.path w.byName]
  | none => []

/-- The Keras callbacks built by `train_model` (`training.py` lines
297-303), defunctionalised.  `modelCheckpoint` keeps the directory and phase
tag of the filepath template `'%s_{epoch:03d}.h5'`, the `save_weights_only`
flag, and the save period (the source passes no period, so the Keras default
of saving every epoch, period 1, applies). -/
inductive Callback where
  | modelCheckpoint (modelDir : String) (metricType : String)
      (saveWeightsOnly : Bool) (period : Nat)
  | tensorBoard (logDir : String)
  deriving DecidableEq

/-- `callbacks = [ModelCheckpoint(save_file_name, save_weights_only=True,
verbose=1)]`, plus `TensorBoard(log_dir=log_dir, ...)` exactly when
`metric_type == 'dice'`. -/
def trainModelCallbacks (modelDir logDir metricType : String) : List Callback :=
  Callback.modelCheckpoint modelDir metricType true 1 ::
    (if metricType = "dice" then [Callback.tensorBoard logDir] else [])

/-- What a callback does at the end of epoch `epoch` (0-based, as Keras
counts internally).  `ModelCheckpoint` formats the filepath template with
`epoch + 1` and writes the weights, subject to its period; `TensorBoard`
writes summaries. -/
def onEpochEnd (cb : Callback) (epoch : Nat) : List Step :=
  match cb with
  | Callback.modelCheckpoint md tag weightsOnly period =>
      if (epoch + 1) % period = 0 then
        [Step.saveWeights (ckptPath md tag (epoch + 1)) weightsOnly]
      else []
  | Callback.tensorBoard ld => [Step.writeSummaries ld]

/-- The 0-based epoch indices executed by Keras
`fit_generator(epochs=nEpochs, initial_epoch=initialEpoch)`:
`initialEpoch, initialEpoch+1, ..., nEpochs-1`. -/
def epochsRun (nEpochs : Int) (initialEpoch : Nat) : List Nat :=
  (List.range (nEpochs - initialEpoch).toNat).map (fun i => initialEpoch + i)

/-- The trace of `model.fit_generator(generator, epochs=nEpochs,
steps_per_epoch=nSteps, callbacks=callbacks, initial_epoch=initialEpoch)`:
each executed epoch runs its generator-pull steps and then fires every
callback's end-of-epoch action in order. -/
def fitSteps (metricType : String) (callbacks : List Callback)
    (nEpochs nSteps : Int) (initialEpoch : Nat) : List Step :=
  (epochsRun nEpochs initialEpoch).flatMap
    (fun e => Step.runEpochSteps metricType e nSteps ::
      callbacks.flatMap (fun cb => onEpochEnd cb e))

/-- The trace of `train_model` (`training.py` lines 286-315): build
callbacks, compile, fit. -/
def trainModelSteps (modelDir logDir metricType : String)
    (nEpochs nSteps : Int) (initialEpoch : Nat) : List Step :=
  Step.compile metricType ::
    fitSteps metricType (trainModelCallbacks modelDir logDir metricType)
      nEpochs nSteps initialEpoch

/-- The wl2 warm-up phase of `training` (lines 266-272): optional strict
load of `load_model_file`, then `train_model(..., 'wl2', initial_epoch_wl2)`. -/
def wl2PhaseSteps (cfg : Config) : List Step :=
  loadSteps "wl2" (wl2InitialLoad cfg) ++
    trainModelSteps cfg.model_dir (logDirOf cfg.model_dir) "wl2"
      cfg.wl2_epochs cfg.steps_per_epoch cfg.initial_epoch_wl2

/-- The dice fine-tuning phase of `training` (lines 275-283): the handoff /
external load decision, then `train_model(..., 'dice', initial_epoch_dice)`. -/
def dicePhaseSteps (cfg : Config) : List Step :=
  loadSteps "dice" (diceInitialLoad cfg) ++
    trainModelSteps cfg.model_dir (logDirOf cfg.model_dir) "dice"
      cfg.dice_epochs cfg.steps_per_epoch cfg.initial_epoch_dice

/-- Modelled from the spec (§3 prior arrays, §7 `ConfigurationError`):
`BrainGenerator` construction (not under `src/`) rejects a configuration
that requests per-channel-specific statistics while the number `M` of
modality blocks in the prior arrays exceeds one and differs from
`n_channels`. -/
def generatorArgsOk (cfg : Config) : Bool :=
  !(cfg.use_specific_stats_for_channel && decide (1 < cfg.prior_n_mod)
      && decide (cfg.prior_n_mod ≠ cfg.n_channels))

/-- The label-list resolution calls of `training` (lines 194-200): one
`get_list_labels` call for the generation labels (with `labels_dir` and the
optional save path), and a second one for the segmentation labels exactly
when an explicit segmentation label list is supplied. -/
def labelResolutionSteps (cfg : Config) : List Step :=
  Step.getListLabels cfg.path_generation_labels (some cfg.labels_dir)
      cfg.save_generation_labels ::
    (match cfg.path_segmentation_labels with
     | some p => [Step.getListLabels (some p) none none]
     | none => [])

/-- The directory creations of `training` (lines 205-210): `model_dir`, then
its `logs` subdirectory. -/
def dirCreationSteps (cfg : Config) : List Step :=
  [Step.mkdir cfg.model_dir, Step.mkdir (logDirOf cfg.model_dir)]

/-- The trace of `SynthSeg.training.training` (lines 190-283): the steps
performed, and the error that aborted the run, if any.  The epoch-count
assert fires before anything else; label resolution, directory creation and
generator construction follow in source order; the generator's modelled
validation aborts at construction; then the unet is built and the two phases
run, each guarded by its epoch count. -/
def trainingTrace (cfg : Config) : List Step × Option TrainError :=
  if 0 < cfg.wl2_epochs ∨ 0 < cfg.dice_epochs then
    if generatorArgsOk cfg then
      (labelResolutionSteps cfg ++ dirCreationSteps cfg ++
          [Step.buildGenerator, Step.buildUnet] ++
          (if 0 < cfg.wl2_epochs then wl2PhaseSteps cfg else []) ++
          (if 0 < cfg.dice_epochs then dicePhaseSteps cfg else []),
        none)
    else
      (labelResolutionSteps cfg ++ dirCreationSteps cfg,
        some TrainError.configurationError)
  else ([], some TrainError.configurationError)

/-- Modelled from the spec (§4.1): the behaviour of
`ext.lab2im.utils.get_list_labels` (not under `src/`), abstracted as an
arbitrary resolution function from the `label_list` and `labels_dir`
arguments to an ordered label list and a neutral-label count.  The claims
about the orchestrator's label plumbing hold for every such function. -/
structure LabelEnv where
  getListLabels : Option String → Option String → List Int × Nat

/-- The label bookkeeping of `training` (lines 194-203): resolve the
generation labels (with their neutral count) from `path_generation_labels`
and `labels_dir`; resolve the segmentation labels from
`path_segmentation_labels` alone when it is supplied, discarding the neutral
count of that call, and default them to the generation labels otherwise.
Returns `(generation_labels, segmentation_labels, n_neutral_labels)`. -/
def resolveTrainingLabels (env : LabelEnv) (cfg : Config) :
    List Int × List Int × Nat :=
  let g := env.getListLabels cfg.path_generation_labels (some cfg.labels_dir)
  let seg :=
    match cfg.path_segmentation_labels with
    | some p => (env.getListLabels (some p) none).1
    | none => g.1
  (g.1, seg, g.2)

/-- The arguments of the `BrainGenerator` construction in `training` (lines
213-242) that the claims inspect. -/
structure BrainGeneratorArgs where
  generation_labels : List Int
  output_labels : List Int
  n_neutral_labels : Nat
  batchsize : Nat
  n_channels : Nat
  output_div_by_n : Nat

/-- How `training` fills those arguments: the resolved label lists and
neutral count, the configured batch and channel counts, and
`output_div_by_n = 2 ** n_levels`. -/
def mkBrainGeneratorArgs (env : LabelEnv) (cfg : Config) : BrainGeneratorArgs :=
  let r := resolveTrainingLabels env cfg
  { generation_labels := r.1
    output_labels := r.2.1
    n_neutral_labels := r.2.2
    batchsize := cfg.batchsize
    n_channels := cfg.n_channels
    output_div_by_n := 2 ^ cfg.n_levels }

/-- Modelled from the spec (§4.2): the generator (not under `src/`) rounds
each output-shape dimension to a multiple of `output_div_by_n` when deriving
the network input shape (`n` is `2 ^ n_levels`, hence never zero in use). -/
def roundToDivisible (n d : Nat) : Nat := n * ((d + n / 2) / n)

/-- Modelled from the spec (§4.4): `metrics_model.IdentityLoss().loss` (not
under `src/`) passes the wrapped model's per-example scalar through
unchanged. -/
def identityLoss (_yTrue yPred : Rat) : Rat := yPred

/-- The arguments of the `model.compile` call in `train_model`. -/
structure CompileArgs where
  learningRate : Rat
  lrDecay : Rat
  loss : Rat → Rat → Rat
  lossWeights : List Rat

/-- `model.compile(optimizer=Adam(lr=learning_rate, decay=lr_decay),
loss=metrics_model.IdentityLoss().loss, loss_weights=[1.0])`
(`training.py` lines 305-308); identical in both phases. -/
def trainModelCompileArgs (learningRate lrDecay : Rat) : CompileArgs :=
  { learningRate := learningRate
    lrDecay := lrDecay
    loss := identityLoss
    lossWeights := [1] }

/-- The checkpoint paths written in a step list, in order. -/
def savedWeightFiles (steps : List Step) : List String :=
  steps.filterMap (fun s =>
    match s with
    | Step.saveWeights p _ => some p
    | _ => none)

/-- The number of training epochs performed in a step list. -/
def epochsPerformed (steps : List Step) : Nat :=
  (steps.filter (fun s =>
    match s with
    | Step.runEpochSteps _ _ _ => true
    | _ => false)).length

/-- The `dest` names of every flag of the command-line launcher
`scripts/launch_scripts_from_terminal/training.py`, in source order; these
are exactly the keywords of its final call `training(**vars(args))`. -/
def cliArgDests : List String :=
  ["labels_dir", "model_dir", "path_generation_labels",
   "path_segmentation_labels", "save_generation_labels", "batchsize",
   "n_channels", "target_res", "output_shape", "path_generation_classes",
   "prior_distributions", "prior_means", "prior_stds",
   "use_specific_stats_for_channel", "mix_prior_and_random", "flipping",
   "scaling_bounds", "rotation_bounds", "shearing_bounds",
   "translation_bounds", "nonlin_std", "nonlin_shape_factor",
   "randomise_res", "build_distance_maps", "data_res", "thickness",
   "downsample", "blur_range", "bias_field_std", "bias_shape_factor",
   "n_levels", "nb_conv_per_level", "conv_size", "unet_feat_count",
   "feat_multiplier", "dropout", "activation", "lr", "lr_decay",
   "wl2_epochs", "dice_epochs", "steps_per_epoch", "checkpoint"]

/-- The parameter names accepted by `SynthSeg.training.training`, in
signature order (lines 17-61); note `buil_distance_maps` and
`load_model_file`. -/
def trainingParamNames : List String :=
  ["labels_dir", "model_dir", "path_generation_labels",
   "path_segmentation_labels", "save_generation_labels", "batchsize",
   "n_channels", "target_res", "output_shape", "path_generation_classes",
   "prior_distributions", "prior_means", "prior_stds",
   "use_specific_stats_for_channel", "mix_prior_and_random", "flipping",
   "scaling_bounds", "rotation_bounds", "shearing_bounds",
   "translation_bounds", "nonlin_std", "nonlin_shape_factor",
   "randomise_res", "buil_distance_maps", "data_res", "thickness",
   "downsample", "blur_range", "bias_field_std", "bias_shape_factor",
   "n_levels", "nb_conv_per_level", "conv_size", "unet_feat_count",
   "feat_multiplier", "dropout", "activation", "lr", "lr_decay",
   "wl2_epochs", "dice_epochs", "steps_per_epoch", "load_model_file",
   "initial_epoch_wl2", "initial_epoch_dice"]

/-- The numeric flag defaults of the command-line launcher, keyed by dest. -/
def cliNumericDefaults : List (String × Rat) :=
  [("batchsize", 1), ("n_channels", 1), ("scaling_bounds", 15 / 100),
   ("rotation_bounds", 15), ("shearing_bounds", 12 / 1000),
   ("nonlin_std", 3), ("nonlin_shape_factor", 4 / 100),
   ("blur_range", 103 / 100), ("bias_field_std", 1 / 2),
   ("bias_shape_factor", 25 / 1000), ("n_levels", 5),
   ("nb_conv_per_level", 2), ("conv_size", 3), ("unet_feat_count", 24),
   ("feat_multiplier", 2), ("dropout", 0), ("lr", 1 / 10000),
   ("lr_decay", 0), ("wl2_epochs", 5), ("dice_epochs", 100),
   ("steps_per_epoch", 1000)]

/-- The numeric parameter defaults of `SynthSeg.training.training`'s
signature, keyed by parameter name. -/
def trainingNumericDefaults : List (String × Rat) :=
  [("batchsize", 1), ("n_channels", 1), ("scaling_bounds", 15 / 100),
   ("rotation_bounds", 15), ("shearing_bounds", 12 / 1000),
   ("nonlin_std", 4), ("nonlin_shape_factor", 4 / 100),
   ("blur_range", 115 / 100), ("bias_field_std", 1 / 2),
   ("bias_shape_factor", 25 / 1000), ("n_levels", 5),
   ("nb_conv_per_level", 2), ("conv_size", 3), ("unet_feat_count", 24),
   ("feat_multiplier", 2), ("dropout", 0), ("lr", 1 / 10000),
   ("lr_decay", 0), ("wl2_epochs", 5), ("dice_epochs", 100),
   ("steps_per_epoch", 1000)]

/-- A configuration that passes the epoch-count check but fails the
generator's modelled validation: per-channel statistics requested with two
modality blocks and a single channel. -/
def statsMismatchConfig : Config :=
  { labels_dir := "ld", model_dir := "md", wl2_epochs := 5, dice_epochs := 100,
    use_specific_stats_for_channel := true, prior_n_mod := 2, n_channels := 1 }

/-- A configuration whose warm-up runs for 5 epochs before 100 dice epochs,
with an external checkpoint also supplied. -/
def handoffConfig : Config :=
  { labels_dir := "ld", model_dir := "md", wl2_epochs := 5, dice_epochs := 100,
    load_model_file := some "ext.h5" }

/-- A configuration that skips the warm-up (`wl2_epochs = 0`) and supplies
an external checkpoint for one dice epoch. -/
def skipWarmupConfig : Config :=
  { labels_dir := "ld", model_dir := "md", wl2_epochs := 0, dice_epochs := 1,
    load_model_file := some "ext.h5" }

/-- A configuration with both phase epoch counts zero. -/
def noPhaseConfig : Config :=
  { labels_dir := "ld", model_dir := "md", wl2_epochs := 0, dice_epochs := 0 }

/-- A dice run of 3 epochs resumed at epoch 1. -/
def resumeConfig : Config :=
  { labels_dir := "ld", model_dir := "m", dice_epochs := 3,
    initial_epoch_dice := 1 }

/-- A concrete label-resolution environment: the explicit list path "segp"
resolves to `([2, 3], 7)`; everything else resolves to `([0, 2, 3], 1)`. -/
def labelEnvEx : LabelEnv :=
  ⟨fun l _d => if l = some "segp" then ([2, 3], 7) else ([0, 2, 3], 1)⟩

/-- A configuration with no explicit segmentation label list. -/
def noSegConfig : Config := { labels_dir := "ld", model_dir := "md" }

/-- A configuration with the explicit segmentation label list path "segp". -/
def segConfig : Config :=
  { labels_dir := "ld", model_dir := "md",
    path_segmentation_labels := some "segp" }

theorem savedWeightFiles_append (a b : List Step) :
    savedWeightFiles (a ++ b) = savedWeightFiles a ++ savedWeightFiles b := by
  simp [savedWeightFiles, List.filterMap_append]

theorem epochsPerformed_append (a b : List Step) :
    epochsPerformed (a ++ b) = epochsPerformed a + epochsPerformed b := by
  simp [epochsPerformed, List.filter_append]

theorem savedWeightFiles_epochBlocks (md ld tag : String) (S : Int)
    (l : List Nat) :
    savedWeightFiles (l.flatMap (fun e => Step.runEpochSteps tag e S ::
        (trainModelCallbacks md ld tag).flatMap (fun cb => onEpochEnd cb e))) =
      l.map (fun e => ckptPath md tag (e + 1)) := by
  induction l with
  | nil => rfl
  | cons e l ih =>
      rw [List.flatMap_cons, savedWeightFiles_append, ih, List.map_cons]
      by_cases htag : tag = "dice" <;>
        simp [savedWeightFiles, trainModelCallbacks, onEpochEnd, htag,
          Nat.mod_one]

theorem epochsPerformed_epochBlocks (md ld tag : String) (S : Int)
    (l : List Nat) :
    epochsPerformed (l.flatMap (fun e => Step.runEpochSteps tag e S ::
        (trainModelCallbacks md ld tag).flatMap (fun cb => onEpochEnd cb e))) =
      l.length := by
  induction l with
  | nil => rfl
  | cons e l ih =>
      rw [List.flatMap_cons, epochsPerformed_append, ih]
      by_cases htag : tag = "dice" <;>
        simp [epochsPerformed, trainModelCallbacks, onEpochEnd, htag,
          Nat.mod_one, Nat.add_comm]

/-- C1: when `dice_epochs > 0`, the dice model's initial weights come from
the final warm-up checkpoint `wl2_%03d.h5 % wl2_epochs` in `model_dir`,
loaded `by_name=True`, whenever `wl2_epochs > 0` — and `load_model_file` is
then ignored by the whole dice phase; only when `wl2_epochs = 0` and
`load_model_file` is supplied does the dice phase start by loading that file
(strictly, not by name), so it never touches a `wl2_*` checkpoint name. -/
theorem dice_phase_weight_source (cfg : Config) (_hd : 0 < cfg.dice_epochs) :
    (0 < cfg.wl2_epochs →
      diceInitialLoad cfg =
        some { path := ckptPath cfg.model_dir "wl2" cfg.wl2_epochs.toNat,
               byName := true } ∧
      ∀ f, dicePhaseSteps { cfg with load_model_file := f } =
        dicePhaseSteps cfg) ∧
    (cfg.wl2_epochs = 0 → ∀ p, cfg.load_model_file = some p →
      diceInitialLoad cfg = some { path := p, byName := false } ∧
      (dicePhaseSteps cfg).head? = some (Step.loadWeights "dice" p false)) := by
  constructor
  · intro hw
    refine ⟨by simp [diceInitialLoad, hw], fun f => ?_⟩
    simp [dicePhaseSteps, diceInitialLoad, hw]
  · intro hw p hp
    have hw' : ¬ 0 < cfg.wl2_epochs := by omega
    constructor
    · simp [diceInitialLoad, hw', hp]
    · simp [dicePhaseSteps, diceInitialLoad, hw', hp, loadSteps]

/-- Witness for C1: with `wl2_epochs = 5` the dice model loads
`md/wl2_005.h5` by name; with `wl2_epochs = 0` and an external file the dice
phase starts by loading that file strictly. -/
theorem dice_phase_weight_source_check :
    diceInitialLoad handoffConfig =
      some { path := "md/wl2_005.h5", byName := true } ∧
    (dicePhaseSteps skipWarmupConfig).head? =
      some (Step.loadWeights "dice" "ext.h5" false) := by
  have h1 := dice_phase_weight_source handoffConfig (by decide)
  have h2 := dice_phase_weight_source skipWarmupConfig (by decide)
  exact ⟨((h1.1 (by decide)).1).trans (by decide), (h2.2 rfl "ext.h5" rfl).2⟩

/-- C2: when neither phase has a positive epoch count, `training` aborts
with a configuration error before label resolution, directory creation, or
generator construction: the trace is empty. -/
theorem training_aborts_when_no_phase (cfg : Config)
    (hw : cfg.wl2_epochs ≤ 0) (hd : cfg.dice_epochs ≤ 0) :
    trainingTrace cfg = ([], some TrainError.configurationError) := by
  have h : ¬ (0 < cfg.wl2_epochs ∨ 0 < cfg.dice_epochs) := by omega
  simp [trainingTrace, h]

/-- Witness for C2 at `wl2_epochs = 0`, `dice_epochs = 0`. -/
theorem training_aborts_when_no_phase_check :
    trainingTrace noPhaseConfig = ([], some TrainError.configurationError) :=
  training_aborts_when_no_phase noPhaseConfig (by decide) (by decide)

/-- Counterexample to C3 as stated: a configuration whose generator-level
validation fails (per-channel statistics with 2 modality blocks and 1
channel) still creates `model_dir` — the run raises a configuration error
yet the filesystem is changed. -/
theorem generator_error_after_mkdir :
    (trainingTrace statsMismatchConfig).2 = some TrainError.configurationError ∧
    Step.mkdir "md" ∈ (trainingTrace statsMismatchConfig).1 ∧
    Step.mkdir "md/logs" ∈ (trainingTrace statsMismatchConfig).1 := by decide

/-- C3 (amended): the epoch-count validation aborts before anything at all
is done, but a configuration error raised at generator construction occurs
only after `model_dir` and its `logs` subdirectory are created — it still
precedes any generator or model building. -/
theorem validation_abort_boundaries :
    (∀ cfg : Config, cfg.wl2_epochs ≤ 0 → cfg.dice_epochs ≤ 0 →
      trainingTrace cfg = ([], some TrainError.configurationError)) ∧
    (∀ cfg : Config, (0 < cfg.wl2_epochs ∨ 0 < cfg.dice_epochs) →
      generatorArgsOk cfg = false →
      (trainingTrace cfg).2 = some TrainError.configurationError ∧
      Step.mkdir cfg.model_dir ∈ (trainingTrace cfg).1 ∧
      Step.buildGenerator ∉ (trainingTrace cfg).1 ∧
      Step.buildUnet ∉ (trainingTrace cfg).1) := by
  constructor
  · intro cfg hw hd
    have h : ¬ (0 < cfg.wl2_epochs ∨ 0 < cfg.dice_epochs) := by omega
    simp [trainingTrace, h]
  · intro cfg h hbad
    have htr : trainingTrace cfg =
        (labelResolutionSteps cfg ++ dirCreationSteps cfg,
          some TrainError.configurationError) := by
      simp [trainingTrace, h, hbad]
    rw [htr]
    refine ⟨rfl, ?_, ?_, ?_⟩
    · simp [labelResolutionSteps, dirCreationSteps]
    · cases hseg : cfg.path_segmentation_labels <;>
        simp [labelResolutionSteps, dirCreationSteps, hseg]
    · cases hseg : cfg.path_segmentation_labels <;>
        simp [labelResolutionSteps, dirCreationSteps, hseg]

/-- Witness for C3 (amended): both abort modes at concrete configurations. -/
theorem validation_abort_boundaries_check :
    trainingTrace noPhaseConfig = ([], some TrainError.configurationError) ∧
    Step.mkdir "md" ∈ (trainingTrace statsMismatchConfig).1 ∧
    Step.buildGenerator ∉ (trainingTrace statsMismatchConfig).1 := by
  have h := validation_abort_boundaries
  have h2 := h.2 statsMismatchConfig (by decide) (by decide)
  exact ⟨h.1 noPhaseConfig (by decide) (by decide), h2.2.1, h2.2.2.1⟩

/-- C4 (evidence of the code bug): the launcher's call
`training(**vars(args))` passes the keywords `checkpoint` and
`build_distance_maps`, neither of which `training` accepts (it has
`load_model_file` and the misspelt `buil_distance_maps`), so every parsed
invocation fails on an unexpected keyword; moreover the launcher's
`blur_range` and `nonlin_std` defaults (1.03, 3.0) differ from the
function's documented defaults (1.15, 4.0). -/
theorem cli_kwargs_mismatch :
    ("checkpoint" ∈ cliArgDests ∧ "checkpoint" ∉ trainingParamNames) ∧
    ("build_distance_maps" ∈ cliArgDests ∧
      "build_distance_maps" ∉ trainingParamNames) ∧
    (cliNumericDefaults.lookup "blur_range" = some (103 / 100) ∧
      trainingNumericDefaults.lookup "blur_range" = some (115 / 100) ∧
      (103 / 100 : Rat) ≠ 115 / 100) ∧
    (cliNumericDefaults.lookup "nonlin_std" = some 3 ∧
      trainingNumericDefaults.lookup "nonlin_std" = some 4 ∧
      (3 : Rat) ≠ 4) :=
  ⟨⟨by decide, by decide⟩, ⟨by decide, by decide⟩,
    ⟨rfl, rfl, by norm_num⟩, ⟨rfl, rfl, by norm_num⟩⟩

/-- C5: a dice phase resumed at `initial_epoch_dice = k < dice_epochs`
performs exactly `dice_epochs - k` epochs and writes exactly the
checkpoints `dice_%03d.h5` numbered `k+1, ..., dice_epochs`, in order. -/
theorem resume_correctness (cfg : Config) (k : Nat)
    (hk : cfg.initial_epoch_dice = k) (h : (k : Int) < cfg.dice_epochs) :
    epochsPerformed (dicePhaseSteps cfg) = cfg.dice_epochs.toNat - k ∧
    savedWeightFiles (dicePhaseSteps cfg) =
      (List.range (cfg.dice_epochs.toNat - k)).map
        (fun i => ckptPath cfg.model_dir "dice" (k + i + 1)) := by
  subst hk
  have hn : (cfg.dice_epochs - cfg.initial_epoch_dice).toNat =
      cfg.dice_epochs.toNat - cfg.initial_epoch_dice := by omega
  unfold dicePhaseSteps trainModelSteps
  constructor
  · rw [epochsPerformed_append]
    have h1 : epochsPerformed (loadSteps "dice" (diceInitialLoad cfg)) = 0 := by
      cases diceInitialLoad cfg <;> rfl
    have h2 : epochsPerformed (Step.compile "dice" ::
        fitSteps "dice"
          (trainModelCallbacks cfg.model_dir (logDirOf cfg.model_dir) "dice")
          cfg.dice_epochs cfg.steps_per_epoch cfg.initial_epoch_dice) =
        (epochsRun cfg.dice_epochs cfg.initial_epoch_dice).length := by
      have := epochsPerformed_epochBlocks cfg.model_dir
        (logDirOf cfg.model_dir) "dice" cfg.steps_per_epoch
        (epochsRun cfg.dice_epochs cfg.initial_epoch_dice)
      simpa [fitSteps, epochsPerformed] using this
    rw [h1, h2]
    simp [epochsRun, hn]
  · rw [savedWeightFiles_append]
    have h1 : savedWeightFiles (loadSteps "dice" (diceInitialLoad cfg)) = [] := by
      cases diceInitialLoad cfg <;> rfl
    have h2 : savedWeightFiles (Step.compile "dice" ::
        fitSteps "dice"
          (trainModelCallbacks cfg.model_dir (logDirOf cfg.model_dir) "dice")
          cfg.dice_epochs cfg.steps_per_epoch cfg.initial_epoch_dice) =
        (epochsRun cfg.dice_epochs cfg.initial_epoch_dice).map
          (fun e => ckptPath cfg.model_dir "dice" (e + 1)) := by
      have := savedWeightFiles_epochBlocks cfg.model_dir
        (logDirOf cfg.model_dir) "dice" cfg.steps_per_epoch
        (epochsRun cfg.dice_epochs cfg.initial_epoch_dice)
      simpa [fitSteps, savedWeightFiles] using this
    rw [h1, h2]
    simp only [epochsRun, hn, List.map_map, List.nil_append]
    exact List.map_congr_left fun i _ => by
      simp [Function.comp, Nat.add_comm, Nat.add_left_comm]

/-- Witness for C5: 3 dice epochs resumed at epoch 1 perform 2 epochs and
write `dice_002.h5` and `dice_003.h5`. -/
theorem resume_correctness_check :
    epochsPerformed (dicePhaseSteps resumeConfig) = 2 ∧
    savedWeightFiles (dicePhaseSteps resumeConfig) =
      ["m/dice_002.h5", "m/dice_003.h5"] := by
  have h := resume_correctness resumeConfig 1 rfl (by decide)
  exact ⟨h.1.trans (by decide), h.2.trans (by decide)⟩

/-- C6: in either phase's fit loop, every executed epoch `e` ends with a
weight-only checkpoint write named by the phase tag and the zero-padded
epoch number (`tag_%03d.h5 % (e+1)` in `model_dir`) — there is no skip or
throttle — and the TensorBoard callback is attached to the callback list
exactly when the phase tag is `'dice'`. -/
theorem checkpoint_every_epoch (md ld tag : String) (E S : Int) (k : Nat) :
    (∀ e ∈ epochsRun E k,
      Step.saveWeights (ckptPath md tag (e + 1)) true ∈
        fitSteps tag (trainModelCallbacks md ld tag) E S k) ∧
    (Callback.tensorBoard ld ∈ trainModelCallbacks md ld tag ↔ tag = "dice") := by
  constructor
  · intro e he
    unfold fitSteps
    rw [List.mem_flatMap]
    refine ⟨e, he, ?_⟩
    by_cases htag : tag = "dice" <;>
      simp [trainModelCallbacks, onEpochEnd, htag, Nat.mod_one]
  · by_cases htag : tag = "dice" <;> simp [trainModelCallbacks, htag]

/-- Witness for C6: with one dice epoch, the checkpoint `m/dice_001.h5` is
written and the TensorBoard callback is attached. -/
theorem checkpoint_every_epoch_check :
    Step.saveWeights (ckptPath "m" "dice" 1) true ∈
      fitSteps "dice" (trainModelCallbacks "m" "l" "dice") 1 2 0 ∧
    Callback.tensorBoard "l" ∈ trainModelCallbacks "m" "l" "dice" := by
  have h := checkpoint_every_epoch "m" "l" "dice" 1 2 0
  exact ⟨h.1 0 (by decide), h.2.mpr rfl⟩

/-- C7: for every label-resolution behaviour, when no explicit segmentation
label list is supplied the segmentation labels are exactly the generation
labels; when one is supplied, the segmentation labels come from that list's
own resolution and the neutral count of that resolution is discarded —
`n_neutral_labels` stays the one computed from the generation labels. -/
theorem segmentation_labels_defaulting (env : LabelEnv) (cfg : Config) :
    (cfg.path_segmentation_labels = none →
      (resolveTrainingLabels env cfg).2.1 = (resolveTrainingLabels env cfg).1) ∧
    (∀ p, cfg.path_segmentation_labels = some p →
      (resolveTrainingLabels env cfg).2.1 =
        (env.getListLabels (some p) none).1 ∧
      (resolveTrainingLabels env cfg).2.2 =
        (env.getListLabels cfg.path_generation_labels
          (some cfg.labels_dir)).2) := by
  constructor
  · intro h
    simp [resolveTrainingLabels, h]
  · intro p hp
    constructor <;> simp [resolveTrainingLabels, hp]

/-- Witness for C7 with a concrete environment: defaulting when no
segmentation list is given; independent resolution with the neutral count
of the segmentation call (7) discarded in favour of the generation one (1). -/
theorem segmentation_labels_defaulting_check :
    (resolveTrainingLabels labelEnvEx noSegConfig).2.1 = [0, 2, 3] ∧
    (resolveTrainingLabels labelEnvEx segConfig).2.1 = [2, 3] ∧
    (resolveTrainingLabels labelEnvEx segConfig).2.2 = 1 := by
  have h1 := segmentation_labels_defaulting labelEnvEx noSegConfig
  have h2 := segmentation_labels_defaulting labelEnvEx segConfig
  refine ⟨(h1.1 rfl).trans (by decide), ?_, ?_⟩
  · exact (h2.2 "segp" rfl).1.trans (by decide)
  · exact (h2.2 "segp" rfl).2.trans (by decide)

/-- C8: the generator is constructed with
`output_div_by_n = 2 ** n_levels`, and the modelled shape rounding it
performs therefore yields dimensions divisible by `2 ^ n_levels`. -/
theorem generator_div_constraint (env : LabelEnv) (cfg : Config) :
    (mkBrainGeneratorArgs env cfg).output_div_by_n = 2 ^ cfg.n_levels ∧
    ∀ d, 2 ^ cfg.n_levels ∣ roundToDivisible (2 ^ cfg.n_levels) d :=
  ⟨rfl, fun _ => dvd_mul_right _ _⟩

/-- Witness for C8 at `n_levels = 5` (the default): `output_div_by_n` is
`2 ^ 5 = 32` and the rounding of dimension 70 is divisible by it. -/
theorem generator_div_constraint_check :
    (mkBrainGeneratorArgs labelEnvEx noSegConfig).output_div_by_n = 32 ∧
    32 ∣ roundToDivisible 32 70 := by
  have h := generator_div_constraint labelEnvEx noSegConfig
  exact ⟨h.1.trans (by decide), by simpa using h.2 70⟩

/-- C9: in both phases the single compile step of `train_model` uses loss
weight exactly 1.0 and a loss that returns the wrapped model's per-example
scalar unchanged. -/
theorem identity_loss_compile (learningRate lrDecay : Rat) :
    (trainModelCompileArgs learningRate lrDecay).lossWeights = [1] ∧
    ∀ t p, (trainModelCompileArgs learningRate lrDecay).loss t p = p :=
  ⟨rfl, fun _ _ => rfl⟩

/-- Witness for C9 at the default optimiser settings and a sample scalar. -/
theorem identity_loss_compile_check :
    (trainModelCompileArgs (1 / 10000) 0).lossWeights = [1] ∧
    (trainModelCompileArgs (1 / 10000) 0).loss 57 42 = 42 := by
  have h := identity_loss_compile (1 / 10000) 0
  exact ⟨h.1, h.2 57 42⟩

/-- C10: an external `load_model_file` is always loaded strictly (without
`by_name=True`), both for the warm-up model and for the dice model when the
warm-up is skipped, so it fails unless the architecture matches exactly; the
tolerant by-name load is used only for the wl2-to-dice handoff. -/
theorem external_load_strict (cfg : Config) (p : String)
    (hp : cfg.load_model_file = some p) :
    wl2InitialLoad cfg = some { path := p, byName := false } ∧
    (cfg.wl2_epochs ≤ 0 →
      diceInitialLoad cfg = some { path := p, byName := false }) ∧
    (0 < cfg.wl2_epochs →
      diceInitialLoad cfg =
        some { path := ckptPath cfg.model_dir "wl2" cfg.wl2_epochs.toNat,
               byName := true }) ∧
    (∀ m, loadWeightsSucceeds false m = m) ∧
    loadWeightsSucceeds true false = true := by
  refine ⟨by simp [wl2InitialLoad, hp], fun hw => ?_, fun hw => ?_,
    fun m => by cases m <;> rfl, rfl⟩
  · have hw' : ¬ 0 < cfg.wl2_epochs := by omega
    simp [diceInitialLoad, hw', hp]
  · simp [diceInitialLoad, hw]

/-- Witness for C10: with the warm-up skipped, both loads take the external
file strictly, and a strict load fails on an architecture mismatch. -/
theorem external_load_strict_check :
    wl2InitialLoad skipWarmupConfig = some { path := "ext.h5", byName := false } ∧
    diceInitialLoad skipWarmupConfig = some { path := "ext.h5", byName := false } ∧
    loadWeightsSucceeds false false = false := by
  have h := external_load_strict skipWarmupConfig "ext.h5" rfl
  exact ⟨h.1, h.2.1 (by decide), h.2.2.2.1 false⟩

end SynthSeg
